import Mathlib

/-!
# Prompt dispatcher of `server.js`

A shallow embedding of the `POST /optimize` handler of `server.js` and of its
helper `optimizeOnce`, followed by theorems about mode resolution, prompt
validation, dispatch to the completion provider and response assembly.

Modelling conventions.

* JavaScript values that can reach the handler are JSON values (the request
  body is produced by `express.json()`, a completion by the client library from
  the upstream JSON answer), plus `undefined`.
* A JSON number is carried by its `Number::toString` rendering, the only thing
  the handler reads from a number besides its truthiness (`0` and `-0` render
  as `"0"`, and JSON has no `NaN`).
* A JavaScript string is a Lean `String` (a sequence of Unicode scalar values;
  lone surrogates are not represented).
* The message of a `TypeError` is abbreviated; nothing in the program reads it.
* The completion provider is a function from the call to its settled outcome;
  the order in which the two calls of mode `"both"` settle is a parameter.
-/

namespace PromptOptimizer

/-! ## Values -/

/-- JavaScript values reachable from parsed JSON. An object is the list of its
own properties (distinct keys, as `JSON.parse` leaves them). -/
inductive JsVal where
  | undefined
  | null
  | bool (b : Bool)
  | num (text : String)
  | str (s : String)
  | arr (items : List JsVal)
  | obj (fields : List (String × JsVal))
  deriving Repr

/-- Errors raised while the handler runs: a `TypeError` of the language, or a
rejection of the completion provider carrying whatever detail it has. -/
inductive JsError where
  | typeError (message : String)
  | upstream (detail : String)
  deriving Repr, DecidableEq

/-- Own-property lookup in the property list of an object. -/
def lookupField (key : String) : List (String × JsVal) → Option JsVal
  | [] => none
  | (k, v) :: rest => if k = key then some v else lookupField key rest

/-- Nullish test of `??` and `?.`: `undefined` or `null`. -/
def JsVal.isNullish : JsVal → Bool
  | .undefined => true
  | .null => true
  | _ => false

/-- Truthiness as used by `||`. -/
def JsVal.truthy : JsVal → Bool
  | .undefined => false
  | .null => false
  | .bool b => b
  | .num text => text != "0"
  | .str s => s != ""
  | .arr _ => true
  | .obj _ => true

/-- Property read `v.key` / `v[0]` on a value that is not nullish, for the
property names the program reads (`prompt`, `mode`, `model`, `choices`,
`message`, `content` and index `0`), none of which is defined on a built-in
prototype: an object answers with its own property, an array and a string
answer index `0` with their first element, everything else is `undefined`. -/
def getProp (v : JsVal) (key : String) : JsVal :=
  match v with
  | .obj fields => (lookupField key fields).getD .undefined
  | .arr items => if key = "0" then items.head?.getD .undefined else .undefined
  | .str s =>
    if key = "0" then
      match s.data with
      | [] => .undefined
      | c :: _ => .str (String.singleton c)
    else .undefined
  | _ => .undefined

/-- Optional chaining `v?.key`: `undefined` on a nullish base. -/
def optChain (v : JsVal) (key : String) : JsVal :=
  if v.isNullish then .undefined else getProp v key

/-- Nullish coalescing `v ?? d`. -/
def nullish (v d : JsVal) : JsVal :=
  if v.isNullish then d else v

/-- Logical or `v || d`. -/
def orElse (v d : JsVal) : JsVal :=
  if v.truthy then v else d

mutual
/-- String conversion of a value that is not nullish, as `v.toString()` and the
`ToString` operation compute it on JSON values: a property `toString` of an
object is never callable, so an object that has one raises a `TypeError`. -/
def jsToString : JsVal → Except JsError String
  | .undefined => .error (.typeError "Cannot read properties of undefined (reading 'toString')")
  | .null => .error (.typeError "Cannot read properties of null (reading 'toString')")
  | .bool b => .ok (if b then "true" else "false")
  | .num text => .ok text
  | .str s => .ok s
  | .arr items => joinItems items
  | .obj fields =>
    match lookupField "toString" fields with
    | some _ => .error (.typeError "toString is not a function")
    | none => .ok "[object Object]"
/-- The `Array.prototype.join` with separator `","` behind the string conversion
of an array: a nullish element contributes the empty string. -/
def joinItems : List JsVal → Except JsError String
  | [] => .ok ""
  | [v] => elemToString v
  | v :: w :: rest =>
    match elemToString v with
    | .error e => .error e
    | .ok s =>
      match joinItems (w :: rest) with
      | .error e => .error e
      | .ok t => .ok (s ++ "," ++ t)
/-- One element of a join. -/
def elemToString : JsVal → Except JsError String
  | .undefined => .ok ""
  | .null => .ok ""
  | .bool b => .ok (if b then "true" else "false")
  | .num text => .ok text
  | .str s => .ok s
  | .arr items => joinItems items
  | .obj fields =>
    match lookupField "toString" fields with
    | some _ => .error (.typeError "Cannot convert object to primitive value")
    | none => .ok "[object Object]"
end

/-! ## Strings -/

/-- White space and line terminators of ECMAScript, the characters that
`String.prototype.trim` removes. -/
def isJsWhitespace (c : Char) : Bool :=
  c.toNat = 0x09 || c.toNat = 0x0A || c.toNat = 0x0B || c.toNat = 0x0C || c.toNat = 0x0D ||
  c.toNat = 0x20 || c.toNat = 0xA0 || c.toNat = 0x1680 ||
  (0x2000 ≤ c.toNat && c.toNat ≤ 0x200A) ||
  c.toNat = 0x2028 || c.toNat = 0x2029 || c.toNat = 0x202F || c.toNat = 0x205F ||
  c.toNat = 0x3000 || c.toNat = 0xFEFF

/-- Removes the white space at both ends of a list of characters. -/
def trimChars (cs : List Char) : List Char :=
  ((cs.dropWhile isJsWhitespace).reverse.dropWhile isJsWhitespace).reverse

/-- The method `String.prototype.trim`. -/
def jsTrim (s : String) : String :=
  String.mk (trimChars s.data)

/-- The method `String.prototype.toLowerCase` on the letters `A` to `Z`; other
characters are kept. No character outside `A` to `Z` lower-cases to a letter of
`"both"` or `"xml"`, the only strings the result is compared with. -/
def jsToLowerCase (s : String) : String :=
  String.mk (s.data.map Char.toLower)

/-- The call `v.toLowerCase()` on a value that is not nullish: only a string has
the method, on anything else the call raises a `TypeError`. -/
def callToLowerCase : JsVal → Except JsError String
  | .str s => .ok (jsToLowerCase s)
  | _ => .error (.typeError "toLowerCase is not a function")

/-! ## Templates -/

/-- Text of the template literal of `SYSTEM_MD`, before `.trim()`. -/
def SYSTEM_MD_SOURCE : String :=
  String.intercalate "\n" [
    "",
    "You are an AI prompt optimizer.",
    "",
    "Return every response in **Markdown** using exactly these top-level sections and nothing else:",
    "",
    "# Task",
    "# Context",
    "# References",
    "# Evaluate",
    "# Iterate",
    "",
    "Requirements:",
    "- Use the section headers verbatim and in this order.",
    "- Keep all content under the appropriate section; do not add extra sections or pre/post text.",
    "- If a section has no content, write a single hyphen (-).",
    "- For \"References\", use a bulleted list with descriptive titles and URLs (if applicable).",
    "- For \"Evaluate\", give objective criteria or test cases to judge the quality of the output.",
    "- For \"Iterate\", propose concrete next steps or questions to refine the result.",
    "- Be concise but information-dense; extract as much actionable detail from the user prompt as possible.",
    "- Do not include JSON in your output.",
    "",
    "When you receive a user prompt, analyze it and respond in this exact Markdown structure.",
    ""]

/-- The Markdown template. -/
def SYSTEM_MD : String := jsTrim SYSTEM_MD_SOURCE

/-- Text of the template literal of `SYSTEM_XML`, before `.trim()`. -/
def SYSTEM_XML_SOURCE : String :=
  String.intercalate "\n" [
    "",
    "You are an AI prompt optimizer.",
    "",
    "Return every response as **XML** with the exact root element <response> and these child elements in order:",
    "<task>, <context>, <references>, <evaluate>, <iterate>.",
    "",
    "Requirements:",
    "- Output must be well-formed XML (UTF-8, no XML declaration needed).",
    "- Use only the five elements listed; no attributes.",
    "- If a section is empty, include the tag with a single hyphen (-) as its text content.",
    "- In <references>, use bullet-like lines separated by newlines; include titles and URLs where relevant.",
    "- In <evaluate>, provide objective criteria or test cases.",
    "- In <iterate>, propose concrete next steps or clarification questions.",
    "- Extract as much actionable detail from the user prompt as possible.",
    "",
    "Respond only with XML; do not include Markdown or JSON.",
    ""]

/-- The XML template. -/
def SYSTEM_XML : String := jsTrim SYSTEM_XML_SOURCE

/-! ## Completion calls -/

/-- One chat message of a completion call. -/
structure Message where
  role : String
  content : String
  deriving Repr, DecidableEq

/-- Argument of `openai.chat.completions.create`. -/
structure Call where
  model : JsVal
  messages : List Message
  deriving Repr

/-- Settled result of an asynchronous computation: fulfilled or rejected. -/
abbrev Settled (α : Type) := Except JsError α

/-- The completion provider: how the promise of each call settles, with the
completion object or with a rejection. -/
abbrev Provider := Call → Settled JsVal

/-- The expression `completion.choices?.[0]?.message?.content ?? ""`; reading
`choices` from a nullish completion raises a `TypeError`. -/
def extractContent (completion : JsVal) : Settled JsVal :=
  if completion.isNullish then
    .error (.typeError "Cannot read properties of undefined (reading 'choices')")
  else
    .ok (nullish
      (optChain (optChain (optChain (getProp completion "choices") "0") "message") "content")
      (.str ""))

/-- The function `optimizeOnce`: the call it issues and how its promise
settles. -/
def optimizeOnce (openai : Provider) (model : JsVal) (systemContent userPrompt : String) :
    Call × Settled JsVal :=
  let call : Call :=
    { model := model,
      messages := [
        { role := "system", content := systemContent },
        { role := "user", content := userPrompt } ] }
  (call,
    match openai call with
    | .error e => .error e
    | .ok completion => extractContent completion)

/-- Which of the two promises of mode `"both"` settles first. -/
inductive SettleOrder where
  | markdownFirst
  | xmlFirst
  deriving Repr, DecidableEq

/-- The join `Promise.all([a, b])`: fulfilled with both values in argument
order, rejected with the reason of the promise that rejects first. -/
def promiseAll (order : SettleOrder) (a b : Settled JsVal) : Settled (JsVal × JsVal) :=
  match a, b with
  | .ok x, .ok y => .ok (x, y)
  | .error e, .ok _ => .error e
  | .ok _, .error e => .error e
  | .error e₁, .error e₂ =>
    match order with
    | .markdownFirst => .error e₁
    | .xmlFirst => .error e₂

/-! ## The handler -/

/-- A response sent with `res.status(..).json(..)`. -/
structure Response where
  status : Nat
  body : JsVal
  deriving Repr

/-- How the handler ends: it sends a response, or its promise rejects with an
error that escaped it (the handler then sends nothing). -/
inductive Outcome where
  | responded (r : Response)
  | threw (e : JsError)
  deriving Repr

/-- Observable run of the handler: completion calls in the order they were
issued, errors written with `console.error`, and how it ended. -/
structure Run where
  calls : List Call
  logged : List JsError
  outcome : Outcome
  deriving Repr

/-- The expression `(req.body?.prompt ?? "").toString()`. -/
def userPromptOf (body : JsVal) : Except JsError String :=
  jsToString (nullish (optChain body "prompt") (.str ""))

/-- The expression `(req.body?.mode ?? "markdown").toLowerCase()`. -/
def modeOf (body : JsVal) : Except JsError String :=
  callToLowerCase (nullish (optChain body "mode") (.str "markdown"))

/-- The expression `req.body?.model || "gpt-4o"`. -/
def modelOf (body : JsVal) : JsVal :=
  orElse (optChain body "model") (.str "gpt-4o")

/-- The handler of `POST /optimize`, on the request body `req.body`. The three
constants are computed before the `try` block, so an error raised there
escapes the handler. -/
def optimizeHandler (openai : Provider) (order : SettleOrder) (body : JsVal) : Run :=
  match userPromptOf body with
  | .error e => { calls := [], logged := [], outcome := .threw e }
  | .ok userPrompt =>
    match modeOf body with
    | .error e => { calls := [], logged := [], outcome := .threw e }
    | .ok mode =>
      let model := modelOf body
      if jsTrim userPrompt = "" then
        { calls := [], logged := [],
          outcome := .responded
            { status := 400, body := .obj [("error", .str "Missing 'prompt' in request body.")] } }
      else if mode = "both" then
        let md := optimizeOnce openai model SYSTEM_MD userPrompt
        let xm := optimizeOnce openai model SYSTEM_XML userPrompt
        match promiseAll order md.2 xm.2 with
        | .ok (markdown, xml) =>
          { calls := [md.1, xm.1], logged := [],
            outcome := .responded
              { status := 200, body := .obj [("markdown", markdown), ("xml", xml)] } }
        | .error err =>
          { calls := [md.1, xm.1], logged := [err],
            outcome := .responded
              { status := 500, body := .obj [("error", .str "Failed to process prompt")] } }
      else if mode = "xml" then
        let xm := optimizeOnce openai model SYSTEM_XML userPrompt
        match xm.2 with
        | .ok xml =>
          { calls := [xm.1], logged := [],
            outcome := .responded { status := 200, body := .obj [("xml", xml)] } }
        | .error err =>
          { calls := [xm.1], logged := [err],
            outcome := .responded
              { status := 500, body := .obj [("error", .str "Failed to process prompt")] } }
      else
        let md := optimizeOnce openai model SYSTEM_MD userPrompt
        match md.2 with
        | .ok markdown =>
          { calls := [md.1], logged := [],
            outcome := .responded { status := 200, body := .obj [("markdown", markdown)] } }
        | .error err =>
          { calls := [md.1], logged := [err],
            outcome := .responded
              { status := 500, body := .obj [("error", .str "Failed to process prompt")] } }

/-! ## Sample data -/

/-- A completion whose first choice carries the given text. -/
def completionWith (text : String) : JsVal :=
  .obj [("id", .str "chatcmpl-1"),
        ("choices", .arr [.obj [("index", .num "0"),
                                ("message", .obj [("role", .str "assistant"),
                                                  ("content", .str text)])]])]

/-- A provider that answers every call with the same text. -/
def echoProvider (text : String) : Provider :=
  fun _ => .ok (completionWith text)

/-- A provider that rejects the call made with the XML template and answers
every other call. -/
def xmlRejectingProvider : Provider := fun call =>
  match call.messages with
  | sys :: _ =>
    if sys.content = SYSTEM_XML then .error (.upstream "429 rate limit")
    else .ok (completionWith "# Task")
  | [] => .ok (completionWith "# Task")

/-- The templates invoked in each resolved mode, as the specification lists
them: both templates for `"both"`, the XML template for `"xml"`, the Markdown
template for anything else. -/
def modeTemplates (mode : String) : List String :=
  if mode = "both" then [SYSTEM_MD, SYSTEM_XML]
  else if mode = "xml" then [SYSTEM_XML]
  else [SYSTEM_MD]

/-- The completions without text that the specification lists: no `choices`
field, an empty `choices` list, a first choice without `message`, a message
whose `content` is missing or null. -/
def emptyCompletion (completion : JsVal) : Bool :=
  match getProp completion "choices" with
  | .undefined => true
  | .arr [] => true
  | .arr (choice :: _) =>
    match optChain choice "message" with
    | .undefined => true
    | message =>
      match optChain message "content" with
      | .undefined => true
      | .null => true
      | _ => false
  | _ => false

/-! ## Basic facts -/

set_option maxRecDepth 100000 in
theorem SYSTEM_MD_ne_SYSTEM_XML : SYSTEM_MD ≠ SYSTEM_XML := by decide

theorem trimChars_of_all_whitespace (cs : List Char)
    (h : ∀ c ∈ cs, isJsWhitespace c = true) : trimChars cs = [] := by
  have hd : cs.dropWhile isJsWhitespace = [] := by
    induction cs with
    | nil => rfl
    | cons c cs ih =>
      have hc : isJsWhitespace c = true := h c (List.mem_cons_self c cs)
      have hrest : ∀ d ∈ cs, isJsWhitespace d = true :=
        fun d hmem => h d (List.mem_cons_of_mem c hmem)
      simp [List.dropWhile, hc, ih hrest]
  simp [trimChars, hd]

theorem jsTrim_of_all_whitespace (s : String)
    (h : ∀ c ∈ s.data, isJsWhitespace c = true) : jsTrim s = "" := by
  unfold jsTrim
  rw [trimChars_of_all_whitespace s.data h]

theorem extractContent_of_not_nullish (completion : JsVal)
    (h : completion.isNullish = false) :
    extractContent completion = .ok (nullish
      (optChain (optChain (optChain (getProp completion "choices") "0") "message") "content")
      (.str "")) := by
  simp [extractContent, h]

theorem optimizeOnce_call (openai : Provider) (model : JsVal) (sys p : String) :
    (optimizeOnce openai model sys p).1 =
      { model := model,
        messages := [{ role := "system", content := sys }, { role := "user", content := p }] } :=
  rfl

theorem optimizeOnce_settled (openai : Provider) (model : JsVal) (sys p : String) :
    (optimizeOnce openai model sys p).2 =
      match openai (optimizeOnce openai model sys p).1 with
      | .error e => .error e
      | .ok completion => extractContent completion :=
  rfl

/-! ## The three branches of the handler -/

theorem modeOf_of_absent (body : JsVal) (h : optChain body "mode" = .undefined) :
    modeOf body = .ok "markdown" := by
  simp only [modeOf, h, nullish, JsVal.isNullish, callToLowerCase]
  rfl

theorem modeOf_of_string (body : JsVal) (m : String) (h : optChain body "mode" = .str m) :
    modeOf body = .ok (jsToLowerCase m) := by
  simp [modeOf, h, nullish, JsVal.isNullish, callToLowerCase]

theorem handler_both (openai : Provider) (order : SettleOrder) (body : JsVal) (p : String)
    (hp : userPromptOf body = .ok p) (hne : jsTrim p ≠ "") (hm : modeOf body = .ok "both") :
    optimizeHandler openai order body =
      match promiseAll order (optimizeOnce openai (modelOf body) SYSTEM_MD p).2
          (optimizeOnce openai (modelOf body) SYSTEM_XML p).2 with
      | .ok (markdown, xml) =>
        { calls := [(optimizeOnce openai (modelOf body) SYSTEM_MD p).1,
                    (optimizeOnce openai (modelOf body) SYSTEM_XML p).1],
          logged := [],
          outcome := .responded
            { status := 200, body := .obj [("markdown", markdown), ("xml", xml)] } }
      | .error err =>
        { calls := [(optimizeOnce openai (modelOf body) SYSTEM_MD p).1,
                    (optimizeOnce openai (modelOf body) SYSTEM_XML p).1],
          logged := [err],
          outcome := .responded
            { status := 500, body := .obj [("error", .str "Failed to process prompt")] } } := by
  simp only [optimizeHandler, hp, hm, hne, if_false, if_true]

theorem handler_xml (openai : Provider) (order : SettleOrder) (body : JsVal) (p : String)
    (hp : userPromptOf body = .ok p) (hne : jsTrim p ≠ "") (hm : modeOf body = .ok "xml") :
    optimizeHandler openai order body =
      match (optimizeOnce openai (modelOf body) SYSTEM_XML p).2 with
      | .ok xml =>
        { calls := [(optimizeOnce openai (modelOf body) SYSTEM_XML p).1], logged := [],
          outcome := .responded { status := 200, body := .obj [("xml", xml)] } }
      | .error err =>
        { calls := [(optimizeOnce openai (modelOf body) SYSTEM_XML p).1], logged := [err],
          outcome := .responded
            { status := 500, body := .obj [("error", .str "Failed to process prompt")] } } := by
  have hnb : ¬ ("xml" = "both") := by decide
  simp only [optimizeHandler, hp, hm, hne, hnb, if_false, if_true]

theorem handler_markdown (openai : Provider) (order : SettleOrder) (body : JsVal) (p m : String)
    (hp : userPromptOf body = .ok p) (hne : jsTrim p ≠ "") (hm : modeOf body = .ok m)
    (hb : m ≠ "both") (hx : m ≠ "xml") :
    optimizeHandler openai order body =
      match (optimizeOnce openai (modelOf body) SYSTEM_MD p).2 with
      | .ok markdown =>
        { calls := [(optimizeOnce openai (modelOf body) SYSTEM_MD p).1], logged := [],
          outcome := .responded { status := 200, body := .obj [("markdown", markdown)] } }
      | .error err =>
        { calls := [(optimizeOnce openai (modelOf body) SYSTEM_MD p).1], logged := [err],
          outcome := .responded
            { status := 500, body := .obj [("error", .str "Failed to process prompt")] } } := by
  simp only [optimizeHandler, hp, hm, hne, hb, hx, if_false, if_true]

/-! ## Calls issued by an accepted request -/

theorem handler_calls (openai : Provider) (order : SettleOrder) (body : JsVal) (p m : String)
    (hp : userPromptOf body = .ok p) (hne : jsTrim p ≠ "") (hm : modeOf body = .ok m) :
    (optimizeHandler openai order body).calls =
      (modeTemplates m).map (fun t => (optimizeOnce openai (modelOf body) t p).1) := by
  by_cases hb : m = "both"
  · subst hb
    rw [handler_both openai order body p hp hne hm]
    split <;> rfl
  · by_cases hx : m = "xml"
    · subst hx
      rw [handler_xml openai order body p hp hne hm]
      split <;> rfl
    · rw [handler_markdown openai order body p m hp hne hm hb hx]
      split <;> simp [modeTemplates, hb, hx]

theorem modeOf_of_absent_or_string (body : JsVal)
    (hmode : optChain body "mode" = .undefined ∨ ∃ m, optChain body "mode" = .str m) :
    ∃ mode, modeOf body = .ok mode := by
  rcases hmode with h | ⟨m, h⟩
  · exact ⟨_, modeOf_of_absent body h⟩
  · exact ⟨_, modeOf_of_string body m h⟩

/-! ## Prompt validation -/

/-- C5: a request whose prompt is missing, null, the empty string or made of
white space only is answered with status 400 and the fixed error body, and no
completion call is issued, whatever string the mode is (or when it is absent)
and whatever the model is. -/
theorem blank_prompt_rejected (openai : Provider) (order : SettleOrder) (body : JsVal)
    (hprompt : optChain body "prompt" = .undefined ∨ optChain body "prompt" = .null ∨
      optChain body "prompt" = .str "" ∨
      ∃ s, optChain body "prompt" = .str s ∧ ∀ c ∈ s.data, isJsWhitespace c = true)
    (hmode : optChain body "mode" = .undefined ∨ ∃ m, optChain body "mode" = .str m) :
    optimizeHandler openai order body =
      { calls := [], logged := [],
        outcome := .responded
          { status := 400,
            body := .obj [("error", .str "Missing 'prompt' in request body.")] } } := by
  have hp : ∃ p, userPromptOf body = .ok p ∧ jsTrim p = "" := by
    rcases hprompt with h | h | h | ⟨s, h, hs⟩
    · exact ⟨"", by simp [userPromptOf, h, nullish, JsVal.isNullish, jsToString], by decide⟩
    · exact ⟨"", by simp [userPromptOf, h, nullish, JsVal.isNullish, jsToString], by decide⟩
    · exact ⟨"", by simp [userPromptOf, h, nullish, JsVal.isNullish, jsToString], by decide⟩
    · exact ⟨s, by simp [userPromptOf, h, nullish, JsVal.isNullish, jsToString],
        jsTrim_of_all_whitespace s hs⟩
  have hm : ∃ m, modeOf body = .ok m := by
    rcases hmode with h | ⟨m, h⟩
    · exact ⟨jsToLowerCase "markdown",
        by simp [modeOf, h, nullish, JsVal.isNullish, callToLowerCase]⟩
    · exact ⟨jsToLowerCase m, by simp [modeOf, h, nullish, JsVal.isNullish, callToLowerCase]⟩
  obtain ⟨p, hp, hblank⟩ := hp
  obtain ⟨m, hm⟩ := hm
  simp [optimizeHandler, hp, hm, hblank]

/-- Witness of C5 on the body `{"prompt": "  \t\n", "mode": "BOTH", "model": "gpt-4o-mini"}`. -/
theorem blank_prompt_rejected_witness :
    optimizeHandler (echoProvider "x") .xmlFirst
        (.obj [("prompt", .str "  \t\n"), ("mode", .str "BOTH"), ("model", .str "gpt-4o-mini")]) =
      { calls := [], logged := [],
        outcome := .responded
          { status := 400,
            body := .obj [("error", .str "Missing 'prompt' in request body.")] } } :=
  blank_prompt_rejected (echoProvider "x") .xmlFirst
    (.obj [("prompt", .str "  \t\n"), ("mode", .str "BOTH"), ("model", .str "gpt-4o-mini")])
    (Or.inr (Or.inr (Or.inr ⟨"  \t\n", by rfl, by decide⟩)))
    (Or.inr ⟨"BOTH", by rfl⟩)

/-! ## Dispatch -/

/-- C1: a request whose prompt is not blank and whose mode is omitted or is
`"markdown"` issues exactly one completion call, whose system message is
`SYSTEM_MD`; when that call yields a completion, the response has status 200
and a body whose only key is `markdown`, holding the text extracted from the
completion. -/
theorem markdown_mode_dispatch (openai : Provider) (order : SettleOrder) (body : JsVal)
    (p : String) (hp : userPromptOf body = .ok p) (hne : jsTrim p ≠ "")
    (hmode : optChain body "mode" = .undefined ∨ optChain body "mode" = .str "markdown") :
    ∃ call : Call,
      (optimizeHandler openai order body).calls = [call] ∧
      call.messages.head? = some { role := "system", content := SYSTEM_MD } ∧
      ∀ completion, openai call = .ok completion → completion.isNullish = false →
        ∃ text, extractContent completion = .ok text ∧
          (optimizeHandler openai order body).outcome =
            .responded { status := 200, body := .obj [("markdown", text)] } := by
  have hm : modeOf body = .ok "markdown" := by
    rcases hmode with h | h
    · exact modeOf_of_absent body h
    · rw [modeOf_of_string body "markdown" h]; rfl
  have hrun := handler_markdown openai order body p "markdown" hp hne hm (by decide) (by decide)
  refine ⟨(optimizeOnce openai (modelOf body) SYSTEM_MD p).1, ?_, rfl, ?_⟩
  · rw [hrun]; split <;> rfl
  · intro completion hc hn
    refine ⟨_, extractContent_of_not_nullish completion hn, ?_⟩
    have hs : (optimizeOnce openai (modelOf body) SYSTEM_MD p).2 =
        extractContent completion := by
      rw [optimizeOnce_settled, hc]
    rw [hrun, hs, extractContent_of_not_nullish completion hn]

/-- Witness of C1 on the body `{"prompt": "hi"}`, the mode omitted. -/
theorem markdown_mode_dispatch_witness :
    userPromptOf (.obj [("prompt", .str "hi")]) = .ok "hi" ∧ jsTrim "hi" ≠ "" ∧
    ∃ call : Call,
      (optimizeHandler (echoProvider "# Task") .markdownFirst
        (.obj [("prompt", .str "hi")])).calls = [call] ∧
      call.messages.head? = some { role := "system", content := SYSTEM_MD } ∧
      ∀ completion, echoProvider "# Task" call = .ok completion →
        completion.isNullish = false →
        ∃ text, extractContent completion = .ok text ∧
          (optimizeHandler (echoProvider "# Task") .markdownFirst
            (.obj [("prompt", .str "hi")])).outcome =
            .responded { status := 200, body := .obj [("markdown", text)] } :=
  ⟨rfl, by decide,
    markdown_mode_dispatch (echoProvider "# Task") .markdownFirst
      (.obj [("prompt", .str "hi")]) "hi" rfl (by decide) (Or.inl rfl)⟩

/-- C2: a request whose prompt is not blank and whose mode is `"xml"` issues
exactly one completion call, whose system message is `SYSTEM_XML`; when that
call yields a completion, the response has status 200 and a body whose only key
is `xml`, holding the text extracted from the completion. -/
theorem xml_mode_dispatch (openai : Provider) (order : SettleOrder) (body : JsVal)
    (p : String) (hp : userPromptOf body = .ok p) (hne : jsTrim p ≠ "")
    (hmode : optChain body "mode" = .str "xml") :
    ∃ call : Call,
      (optimizeHandler openai order body).calls = [call] ∧
      call.messages.head? = some { role := "system", content := SYSTEM_XML } ∧
      ∀ completion, openai call = .ok completion → completion.isNullish = false →
        ∃ text, extractContent completion = .ok text ∧
          (optimizeHandler openai order body).outcome =
            .responded { status := 200, body := .obj [("xml", text)] } := by
  have hm : modeOf body = .ok "xml" := by
    rw [modeOf_of_string body "xml" hmode]; rfl
  have hrun := handler_xml openai order body p hp hne hm
  refine ⟨(optimizeOnce openai (modelOf body) SYSTEM_XML p).1, ?_, rfl, ?_⟩
  · rw [hrun]; split <;> rfl
  · intro completion hc hn
    refine ⟨_, extractContent_of_not_nullish completion hn, ?_⟩
    have hs : (optimizeOnce openai (modelOf body) SYSTEM_XML p).2 =
        extractContent completion := by
      rw [optimizeOnce_settled, hc]
    rw [hrun, hs, extractContent_of_not_nullish completion hn]

/-- Witness of C2 on the body `{"prompt": "hi", "mode": "xml"}`. -/
theorem xml_mode_dispatch_witness :
    userPromptOf (.obj [("prompt", .str "hi"), ("mode", .str "xml")]) = .ok "hi" ∧
    jsTrim "hi" ≠ "" ∧
    ∃ call : Call,
      (optimizeHandler (echoProvider "<response/>") .markdownFirst
        (.obj [("prompt", .str "hi"), ("mode", .str "xml")])).calls = [call] ∧
      call.messages.head? = some { role := "system", content := SYSTEM_XML } ∧
      ∀ completion, echoProvider "<response/>" call = .ok completion →
        completion.isNullish = false →
        ∃ text, extractContent completion = .ok text ∧
          (optimizeHandler (echoProvider "<response/>") .markdownFirst
            (.obj [("prompt", .str "hi"), ("mode", .str "xml")])).outcome =
            .responded { status := 200, body := .obj [("xml", text)] } :=
  ⟨rfl, by decide,
    xml_mode_dispatch (echoProvider "<response/>") .markdownFirst
      (.obj [("prompt", .str "hi"), ("mode", .str "xml")]) "hi" rfl (by decide) rfl⟩

/-- C3: a request whose prompt is not blank and whose mode is `"both"` issues
exactly two completion calls, with the same model and the same user prompt,
the first with `SYSTEM_MD` and the second with `SYSTEM_XML` as system content;
when both yield a completion the response has status 200 and exactly the keys
`markdown` and `xml`, holding the text of the `SYSTEM_MD` call and of the
`SYSTEM_XML` call, in whichever order the two calls settle. -/
theorem both_mode_dispatch (openai : Provider) (body : JsVal)
    (p : String) (hp : userPromptOf body = .ok p) (hne : jsTrim p ≠ "")
    (hmode : optChain body "mode" = .str "both") :
    ∃ mdCall xmlCall : Call,
      (∀ order, (optimizeHandler openai order body).calls = [mdCall, xmlCall]) ∧
      mdCall.model = modelOf body ∧ xmlCall.model = modelOf body ∧
      mdCall.messages =
        [{ role := "system", content := SYSTEM_MD }, { role := "user", content := p }] ∧
      xmlCall.messages =
        [{ role := "system", content := SYSTEM_XML }, { role := "user", content := p }] ∧
      ∀ c₁ c₂, openai mdCall = .ok c₁ → openai xmlCall = .ok c₂ →
        c₁.isNullish = false → c₂.isNullish = false →
        ∃ t₁ t₂, extractContent c₁ = .ok t₁ ∧ extractContent c₂ = .ok t₂ ∧
          ∀ order, (optimizeHandler openai order body).outcome =
            .responded { status := 200, body := .obj [("markdown", t₁), ("xml", t₂)] } := by
  have hm : modeOf body = .ok "both" := by
    rw [modeOf_of_string body "both" hmode]; rfl
  refine ⟨(optimizeOnce openai (modelOf body) SYSTEM_MD p).1,
    (optimizeOnce openai (modelOf body) SYSTEM_XML p).1, ?_, rfl, rfl, rfl, rfl, ?_⟩
  · intro order
    rw [handler_both openai order body p hp hne hm]
    split <;> rfl
  · intro c₁ c₂ h₁ h₂ hn₁ hn₂
    refine ⟨_, _, extractContent_of_not_nullish c₁ hn₁, extractContent_of_not_nullish c₂ hn₂, ?_⟩
    intro order
    have hs₁ : (optimizeOnce openai (modelOf body) SYSTEM_MD p).2 = extractContent c₁ := by
      rw [optimizeOnce_settled, h₁]
    have hs₂ : (optimizeOnce openai (modelOf body) SYSTEM_XML p).2 = extractContent c₂ := by
      rw [optimizeOnce_settled, h₂]
    rw [handler_both openai order body p hp hne hm, hs₁, hs₂,
      extractContent_of_not_nullish c₁ hn₁, extractContent_of_not_nullish c₂ hn₂]
    rfl

/-- Witness of C3 on the example of the specification,
`{"prompt": "Write a function to reverse a string", "mode": "both", "model": "gpt-4o"}`. -/
theorem both_mode_dispatch_witness :
    userPromptOf (.obj [("prompt", .str "Write a function to reverse a string"),
      ("mode", .str "both"), ("model", .str "gpt-4o")]) =
        .ok "Write a function to reverse a string" ∧
    jsTrim "Write a function to reverse a string" ≠ "" ∧
    ∃ mdCall xmlCall : Call,
      (∀ order, (optimizeHandler (echoProvider "ok") order
        (.obj [("prompt", .str "Write a function to reverse a string"),
          ("mode", .str "both"), ("model", .str "gpt-4o")])).calls = [mdCall, xmlCall]) ∧
      mdCall.model = modelOf (.obj [("prompt", .str "Write a function to reverse a string"),
          ("mode", .str "both"), ("model", .str "gpt-4o")]) ∧
      xmlCall.model = modelOf (.obj [("prompt", .str "Write a function to reverse a string"),
          ("mode", .str "both"), ("model", .str "gpt-4o")]) ∧
      mdCall.messages =
        [{ role := "system", content := SYSTEM_MD },
         { role := "user", content := "Write a function to reverse a string" }] ∧
      xmlCall.messages =
        [{ role := "system", content := SYSTEM_XML },
         { role := "user", content := "Write a function to reverse a string" }] ∧
      ∀ c₁ c₂, echoProvider "ok" mdCall = .ok c₁ → echoProvider "ok" xmlCall = .ok c₂ →
        c₁.isNullish = false → c₂.isNullish = false →
        ∃ t₁ t₂, extractContent c₁ = .ok t₁ ∧ extractContent c₂ = .ok t₂ ∧
          ∀ order, (optimizeHandler (echoProvider "ok") order
            (.obj [("prompt", .str "Write a function to reverse a string"),
              ("mode", .str "both"), ("model", .str "gpt-4o")])).outcome =
            .responded { status := 200, body := .obj [("markdown", t₁), ("xml", t₂)] } :=
  ⟨rfl, by decide,
    both_mode_dispatch (echoProvider "ok")
      (.obj [("prompt", .str "Write a function to reverse a string"),
        ("mode", .str "both"), ("model", .str "gpt-4o")])
      "Write a function to reverse a string" rfl (by decide) rfl⟩

/-! ## Mode resolution -/

theorem toLower_toLower (c : Char) : c.toLower.toLower = c.toLower := by
  by_cases h : c.toNat ≥ 65 ∧ c.toNat ≤ 90
  · obtain ⟨h₁, h₂⟩ := h
    have hc : c = Char.ofNat c.toNat := (Char.ofNat_toNat c).symm
    generalize c.toNat = n at h₁ h₂ hc
    subst hc
    interval_cases n <;> decide
  · have hfix : c.toLower = c := by simp [Char.toLower, h]
    rw [hfix, hfix]

theorem jsToLowerCase_idem (s : String) : jsToLowerCase (jsToLowerCase s) = jsToLowerCase s := by
  simp [jsToLowerCase, List.map_map, Function.comp_def, toLower_toLower]

theorem handler_congr (openai : Provider) (order : SettleOrder) (b b' : JsVal)
    (hp : userPromptOf b = userPromptOf b') (hm : modeOf b = modeOf b')
    (hmodel : modelOf b = modelOf b') :
    optimizeHandler openai order b = optimizeHandler openai order b' := by
  simp only [optimizeHandler, hp, hm, hmodel]

theorem handler_congr_markdown (openai : Provider) (order : SettleOrder) (b b' : JsVal)
    (m m' : String) (hp : userPromptOf b = userPromptOf b')
    (hm : modeOf b = .ok m) (hm' : modeOf b' = .ok m')
    (hb : m ≠ "both") (hx : m ≠ "xml") (hb' : m' ≠ "both") (hx' : m' ≠ "xml")
    (hmodel : modelOf b = modelOf b') :
    optimizeHandler openai order b = optimizeHandler openai order b' := by
  simp only [optimizeHandler, hp, hm, hm', hmodel, hb, hx, hb', hx', if_false]

/-- C4: mode resolution is case-insensitive and never rejects. A request with
the mode string `m` has its mode resolved (to the lower-cased `m`) and is
handled exactly as the same request with the lower-cased `m` as mode; and when
the lower-cased `m` is neither `"xml"` nor `"both"`, it is handled exactly as
the same request with mode `"markdown"`: same calls, same response. -/
theorem mode_resolution (openai : Provider) (order : SettleOrder) (b b' : JsVal) (m : String)
    (hprompt : optChain b "prompt" = optChain b' "prompt")
    (hmodel : optChain b "model" = optChain b' "model")
    (hmode : optChain b "mode" = .str m) :
    modeOf b = .ok (jsToLowerCase m) ∧
    (optChain b' "mode" = .str (jsToLowerCase m) →
      optimizeHandler openai order b = optimizeHandler openai order b') ∧
    (jsToLowerCase m ≠ "xml" → jsToLowerCase m ≠ "both" →
      optChain b' "mode" = .str "markdown" →
      optimizeHandler openai order b = optimizeHandler openai order b') := by
  have hp : userPromptOf b = userPromptOf b' := by simp only [userPromptOf, hprompt]
  have hmo : modelOf b = modelOf b' := by simp only [modelOf, hmodel]
  have hm := modeOf_of_string b m hmode
  refine ⟨hm, ?_, ?_⟩
  · intro h'
    have hm' := modeOf_of_string b' (jsToLowerCase m) h'
    rw [jsToLowerCase_idem] at hm'
    exact handler_congr openai order b b' hp (hm.trans hm'.symm) hmo
  · intro hx hb h'
    have hm' : modeOf b' = .ok "markdown" := by
      rw [modeOf_of_string b' "markdown" h']; rfl
    exact handler_congr_markdown openai order b b' (jsToLowerCase m) "markdown" hp hm hm'
      hb hx (by decide) (by decide) hmo

/-- Witness of C4: the mode `"XML"` against `"xml"`, and the mode `" Html "`
(surrounding spaces, not a known mode) against `"markdown"`. -/
theorem mode_resolution_witness :
    optimizeHandler (echoProvider "ok") .markdownFirst
        (.obj [("prompt", .str "hi"), ("mode", .str "XML")]) =
      optimizeHandler (echoProvider "ok") .markdownFirst
        (.obj [("prompt", .str "hi"), ("mode", .str "xml")]) ∧
    optimizeHandler (echoProvider "ok") .markdownFirst
        (.obj [("prompt", .str "hi"), ("mode", .str " Html ")]) =
      optimizeHandler (echoProvider "ok") .markdownFirst
        (.obj [("prompt", .str "hi"), ("mode", .str "markdown")]) :=
  ⟨(mode_resolution (echoProvider "ok") .markdownFirst
      (.obj [("prompt", .str "hi"), ("mode", .str "XML")])
      (.obj [("prompt", .str "hi"), ("mode", .str "xml")]) "XML" rfl rfl rfl).2.1 rfl,
   (mode_resolution (echoProvider "ok") .markdownFirst
      (.obj [("prompt", .str "hi"), ("mode", .str " Html ")])
      (.obj [("prompt", .str "hi"), ("mode", .str "markdown")]) " Html " rfl rfl rfl).2.2
        (by decide) (by decide) rfl⟩

/-! ## Failures of the completion provider -/

theorem promiseAll_of_left_error (order : SettleOrder) (e : JsError) (b : Settled JsVal) :
    ∃ err, promiseAll order (.error e) b = .error err := by
  cases b with
  | error e₂ => cases order <;> exact ⟨_, rfl⟩
  | ok y => exact ⟨_, rfl⟩

theorem promiseAll_of_right_error (order : SettleOrder) (a : Settled JsVal) (e : JsError) :
    ∃ err, promiseAll order a (.error e) = .error err := by
  cases a with
  | error e₁ => cases order <;> exact ⟨_, rfl⟩
  | ok x => exact ⟨_, rfl⟩

theorem optimizeOnce_of_rejected (openai : Provider) (model : JsVal) (sys p : String)
    (e : JsError) (h : openai (optimizeOnce openai model sys p).1 = .error e) :
    (optimizeOnce openai model sys p).2 = .error e := by
  rw [optimizeOnce_settled, h]

theorem optimizeOnce_of_nullish (openai : Provider) (model : JsVal) (sys p : String)
    (k : JsVal) (h : openai (optimizeOnce openai model sys p).1 = .ok k)
    (hk : k.isNullish = true) :
    ∃ e, (optimizeOnce openai model sys p).2 = .error e := by
  refine ⟨.typeError "Cannot read properties of undefined (reading 'choices')", ?_⟩
  rw [optimizeOnce_settled, h]
  simp [extractContent, hk]

/-- C6: when a request with a prompt that is not blank, in any mode (a string,
or absent), has one of its completion calls fail (the provider rejects it,
for whatever reason, or yields no completion object), the response has status
500 and the body `{ error: "Failed to process prompt" }`, which has no
`markdown` and no `xml` key, also in mode `"both"` when the other call
succeeded. -/
theorem failure_gives_generic_500 (openai : Provider) (order : SettleOrder) (body : JsVal)
    (p : String) (hp : userPromptOf body = .ok p) (hne : jsTrim p ≠ "")
    (hmode : optChain body "mode" = .undefined ∨ ∃ m, optChain body "mode" = .str m)
    (hfail : ∃ c ∈ (optimizeHandler openai order body).calls,
      (∃ e, openai c = .error e) ∨ (∃ k, openai c = .ok k ∧ k.isNullish = true)) :
    ∃ r, (optimizeHandler openai order body).outcome = .responded r ∧
      r.status = 500 ∧ r.body = .obj [("error", .str "Failed to process prompt")] ∧
      getProp r.body "markdown" = .undefined ∧ getProp r.body "xml" = .undefined := by
  obtain ⟨m, hm⟩ := modeOf_of_absent_or_string body hmode
  refine ⟨{ status := 500, body := .obj [("error", .str "Failed to process prompt")] },
    ?_, rfl, rfl, rfl, rfl⟩
  obtain ⟨c, hc, hcfail⟩ := hfail
  rw [handler_calls openai order body p m hp hne hm] at hc
  obtain ⟨t, ht, htc⟩ := List.mem_map.mp hc
  have hrej : ∃ e, (optimizeOnce openai (modelOf body) t p).2 = .error e := by
    rcases hcfail with ⟨e, he⟩ | ⟨k, hk, hkn⟩
    · exact ⟨e, optimizeOnce_of_rejected openai _ _ _ e (htc ▸ he)⟩
    · exact optimizeOnce_of_nullish openai _ _ _ k (htc ▸ hk) hkn
  obtain ⟨e, he⟩ := hrej
  by_cases hb : m = "both"
  · subst hb
    have herr : ∃ err, promiseAll order (optimizeOnce openai (modelOf body) SYSTEM_MD p).2
        (optimizeOnce openai (modelOf body) SYSTEM_XML p).2 = .error err := by
      have hcases : t = SYSTEM_MD ∨ t = SYSTEM_XML := by simpa [modeTemplates] using ht
      rcases hcases with h | h
      · rw [← h, he]
        exact promiseAll_of_left_error order e _
      · rw [← h, he]
        exact promiseAll_of_right_error order _ e
    obtain ⟨err, herr⟩ := herr
    rw [handler_both openai order body p hp hne hm, herr]
  · by_cases hx : m = "xml"
    · subst hx
      have ht' : t = SYSTEM_XML := by simpa [modeTemplates] using ht
      rw [handler_xml openai order body p hp hne hm, ← ht', he]
    · have ht' : t = SYSTEM_MD := by simpa [modeTemplates, hb, hx] using ht
      rw [handler_markdown openai order body p m hp hne hm hb hx, ← ht', he]

set_option maxRecDepth 100000 in
/-- Witness of C6: mode `"both"`, the Markdown call answered and the XML call
rejected. -/
theorem failure_gives_generic_500_witness :
    xmlRejectingProvider (optimizeOnce xmlRejectingProvider (.str "gpt-4o") SYSTEM_MD "hi").1 =
      .ok (completionWith "# Task") ∧
    ∃ r, (optimizeHandler xmlRejectingProvider .markdownFirst
        (.obj [("prompt", .str "hi"), ("mode", .str "both")])).outcome = .responded r ∧
      r.status = 500 ∧ r.body = .obj [("error", .str "Failed to process prompt")] ∧
      getProp r.body "markdown" = .undefined ∧ getProp r.body "xml" = .undefined :=
  ⟨rfl,
    failure_gives_generic_500 xmlRejectingProvider .markdownFirst
      (.obj [("prompt", .str "hi"), ("mode", .str "both")]) "hi" rfl (by decide)
      (Or.inr ⟨"both", rfl⟩)
      ⟨(optimizeOnce xmlRejectingProvider (.str "gpt-4o") SYSTEM_XML "hi").1,
        List.mem_cons_of_mem _ (List.mem_cons_self _ _),
        Or.inl ⟨.upstream "429 rate limit", rfl⟩⟩⟩

/-! ## Result extraction -/

theorem optChain_index_zero (choice : JsVal) (rest : List JsVal) :
    optChain (.arr (choice :: rest)) "0" = choice := by
  simp [optChain, JsVal.isNullish, getProp]

theorem nullish_of_not_nullish (v d : JsVal) (h : v.isNullish = false) : nullish v d = v := by
  simp [nullish, h]

theorem nullish_of_nullish (v d : JsVal) (h : v.isNullish = true) : nullish v d = d := by
  simp [nullish, h]

theorem emptyCompletion_content (completion : JsVal) (h : emptyCompletion completion = true) :
    (optChain (optChain (optChain (getProp completion "choices") "0") "message")
      "content").isNullish = true := by
  unfold emptyCompletion at h
  split at h
  · next hch => rw [hch]; rfl
  · next hch => rw [hch]; rfl
  · next choice rest hch =>
    rw [hch, optChain_index_zero]
    split at h
    · next hmsg => rw [hmsg]; rfl
    · split at h
      · next hcontent => rw [hcontent]; rfl
      · next hcontent => rw [hcontent]; rfl
      · exact absurd h (by decide)
  · exact absurd h (by decide)

theorem optimizeOnce_of_empty (openai : Provider) (model : JsVal) (sys p : String)
    (completion : JsVal) (hc : openai (optimizeOnce openai model sys p).1 = .ok completion)
    (hn : completion.isNullish = false) (he : emptyCompletion completion = true) :
    (optimizeOnce openai model sys p).2 = .ok (.str "") := by
  rw [optimizeOnce_settled, hc]
  simp only
  rw [extractContent_of_not_nullish completion hn,
    nullish_of_nullish _ _ (emptyCompletion_content completion he)]

/-- C7: on a completion that the provider yields, `optimizeOnce` returns the
`content` of the `message` of the first choice when it is there (not missing,
not null), and the empty string when the completion has no `choices` field, an
empty `choices` list, a first choice without `message`, or a message whose
`content` is missing or null; a request with a prompt that is not blank whose
calls are all answered by such empty completions still gets status 200, with
the empty string under each key of its mode. -/
theorem extraction_defaults_to_empty (openai : Provider) :
    (∀ model sys p completion,
      openai (optimizeOnce openai model sys p).1 = .ok completion →
      completion.isNullish = false →
        (∀ choice rest v, getProp completion "choices" = .arr (choice :: rest) →
          optChain (optChain choice "message") "content" = v → v.isNullish = false →
          (optimizeOnce openai model sys p).2 = .ok v) ∧
        (emptyCompletion completion = true →
          (optimizeOnce openai model sys p).2 = .ok (.str ""))) ∧
    (∀ order body p m, userPromptOf body = .ok p → jsTrim p ≠ "" → modeOf body = .ok m →
      (∀ c ∈ (optimizeHandler openai order body).calls,
        ∃ k, openai c = .ok k ∧ k.isNullish = false ∧ emptyCompletion k = true) →
      (optimizeHandler openai order body).outcome =
        .responded
          { status := 200,
            body :=
              if m = "both" then .obj [("markdown", .str ""), ("xml", .str "")]
              else if m = "xml" then .obj [("xml", .str "")]
              else .obj [("markdown", .str "")] }) := by
  constructor
  · intro model sys p completion hc hn
    constructor
    · intro choice rest v hch hv hvn
      rw [optimizeOnce_settled, hc]
      simp only
      rw [extractContent_of_not_nullish completion hn, hch, optChain_index_zero, hv,
        nullish_of_not_nullish v _ hvn]
    · exact optimizeOnce_of_empty openai model sys p completion hc hn
  · intro order body p m hp hne hm hall
    have hcalls := handler_calls openai order body p m hp hne hm
    rw [hcalls] at hall
    have hres : ∀ t ∈ modeTemplates m,
        (optimizeOnce openai (modelOf body) t p).2 = .ok (.str "") := by
      intro t ht
      obtain ⟨k, hk, hkn, hke⟩ := hall _ (List.mem_map_of_mem _ ht)
      exact optimizeOnce_of_empty openai (modelOf body) t p k hk hkn hke
    by_cases hb : m = "both"
    · subst hb
      rw [handler_both openai order body p hp hne hm,
        hres SYSTEM_MD (by simp [modeTemplates]), hres SYSTEM_XML (by simp [modeTemplates])]
      rfl
    · by_cases hx : m = "xml"
      · subst hx
        rw [handler_xml openai order body p hp hne hm,
          hres SYSTEM_XML (by simp [modeTemplates])]
        rfl
      · rw [handler_markdown openai order body p m hp hne hm hb hx,
          hres SYSTEM_MD (by simp [modeTemplates, hb, hx])]
        simp [hb, hx]

/-- Witness of C7: a provider answering `{"choices": []}` to a request in mode
`"both"`, and a provider answering a completion with the text `"# Task"`. -/
theorem extraction_defaults_to_empty_witness :
    (optimizeHandler (fun _ => .ok (.obj [("choices", .arr [])])) .xmlFirst
        (.obj [("prompt", .str "hi"), ("mode", .str "both")])).outcome =
      .responded
        { status := 200, body := .obj [("markdown", .str ""), ("xml", .str "")] } ∧
    (optimizeOnce (echoProvider "# Task") (.str "gpt-4o") SYSTEM_MD "hi").2 =
      .ok (.str "# Task") :=
  ⟨(extraction_defaults_to_empty (fun _ => .ok (.obj [("choices", .arr [])]))).2 .xmlFirst
      (.obj [("prompt", .str "hi"), ("mode", .str "both")]) "hi" "both" rfl (by decide) rfl
      (fun _ _ => ⟨.obj [("choices", .arr [])], rfl, rfl, rfl⟩),
   ((extraction_defaults_to_empty (echoProvider "# Task")).1 (.str "gpt-4o") SYSTEM_MD "hi"
      (completionWith "# Task") rfl rfl).1
      (.obj [("index", .num "0"),
             ("message", .obj [("role", .str "assistant"), ("content", .str "# Task")])])
      [] (.str "# Task") rfl rfl rfl⟩

/-! ## Messages and model of the calls -/

/-- C8: for a request whose prompt is a string that is not blank, the message
lists of the calls are, template by template of the resolved mode, the two
messages `system` (the template) and `user` (the prompt as found in the body,
not trimmed), in this order; the templates are those of the mode alone. -/
theorem calls_carry_template_and_raw_prompt (openai : Provider) (order : SettleOrder)
    (body : JsVal) (s : String)
    (hprompt : optChain body "prompt" = .str s) (hne : jsTrim s ≠ "")
    (hmode : optChain body "mode" = .undefined ∨ ∃ m, optChain body "mode" = .str m) :
    ∃ mode, modeOf body = .ok mode ∧
      (optimizeHandler openai order body).calls.map Call.messages =
        (modeTemplates mode).map (fun template =>
          [{ role := "system", content := template }, { role := "user", content := s }]) := by
  have hp : userPromptOf body = .ok s := by
    simp [userPromptOf, hprompt, nullish, JsVal.isNullish, jsToString]
  obtain ⟨mode, hm⟩ := modeOf_of_absent_or_string body hmode
  refine ⟨mode, hm, ?_⟩
  rw [handler_calls openai order body s mode hp hne hm, List.map_map]
  rfl

/-- Witness of C8: the prompt `"  hi  "`, which trimming would change, is sent
as it is, in mode `"both"`. -/
theorem calls_carry_template_and_raw_prompt_witness :
    jsTrim "  hi  " = "hi" ∧
    ∃ mode, modeOf (.obj [("prompt", .str "  hi  "), ("mode", .str "both")]) = .ok mode ∧
      (optimizeHandler (echoProvider "ok") .markdownFirst
        (.obj [("prompt", .str "  hi  "), ("mode", .str "both")])).calls.map Call.messages =
        (modeTemplates mode).map (fun template =>
          [{ role := "system", content := template },
           { role := "user", content := "  hi  " }]) :=
  ⟨by decide,
    calls_carry_template_and_raw_prompt (echoProvider "ok") .markdownFirst
      (.obj [("prompt", .str "  hi  "), ("mode", .str "both")]) "  hi  " rfl (by decide)
      (Or.inr ⟨"both", rfl⟩)⟩

/-- C9: every call of a request with a prompt that is not blank carries the
model of the request when it is a string that is not empty, and `"gpt-4o"`
when the model is omitted, null or the empty string; the request issues at
least one call, and all its calls carry the same model. -/
theorem calls_carry_model (openai : Provider) (order : SettleOrder) (body : JsVal)
    (p : String) (hp : userPromptOf body = .ok p) (hne : jsTrim p ≠ "")
    (hmode : optChain body "mode" = .undefined ∨ ∃ m, optChain body "mode" = .str m) :
    (optimizeHandler openai order body).calls ≠ [] ∧
    (∀ c ∈ (optimizeHandler openai order body).calls, c.model = modelOf body) ∧
    (∀ name, optChain body "model" = .str name → name ≠ "" → modelOf body = .str name) ∧
    (optChain body "model" = .undefined ∨ optChain body "model" = .null ∨
      optChain body "model" = .str "" → modelOf body = .str "gpt-4o") := by
  obtain ⟨mode, hm⟩ := modeOf_of_absent_or_string body hmode
  have hcalls := handler_calls openai order body p mode hp hne hm
  refine ⟨?_, ?_, ?_, ?_⟩
  · rw [hcalls]
    unfold modeTemplates
    split
    · simp
    · split <;> simp
  · intro c hc
    rw [hcalls] at hc
    obtain ⟨t, _, ht⟩ := List.mem_map.mp hc
    rw [← ht]
    rfl
  · intro name hname hnonempty
    simp [modelOf, hname, orElse, JsVal.truthy, hnonempty]
  · intro h
    rcases h with h | h | h <;> simp [modelOf, h, orElse, JsVal.truthy]

/-- Witness of C9: the model `"gpt-4o-mini"` in mode `"both"`. -/
theorem calls_carry_model_witness :
    modelOf (.obj [("prompt", .str "hi"), ("mode", .str "both"),
      ("model", .str "gpt-4o-mini")]) = .str "gpt-4o-mini" ∧
    ∀ c ∈ (optimizeHandler (echoProvider "ok") .markdownFirst
        (.obj [("prompt", .str "hi"), ("mode", .str "both"),
          ("model", .str "gpt-4o-mini")])).calls,
      c.model = modelOf (.obj [("prompt", .str "hi"), ("mode", .str "both"),
        ("model", .str "gpt-4o-mini")]) :=
  ⟨(calls_carry_model (echoProvider "ok") .markdownFirst
      (.obj [("prompt", .str "hi"), ("mode", .str "both"), ("model", .str "gpt-4o-mini")])
      "hi" rfl (by decide) (Or.inr ⟨"both", rfl⟩)).2.2.1 "gpt-4o-mini" rfl (by decide),
   (calls_carry_model (echoProvider "ok") .markdownFirst
      (.obj [("prompt", .str "hi"), ("mode", .str "both"), ("model", .str "gpt-4o-mini")])
      "hi" rfl (by decide) (Or.inr ⟨"both", rfl⟩)).2.1⟩

/-! ## Errors that escape the handler -/

/-- C10 fails on the code: on the body `{"prompt": "hi", "mode": 5}` the call
`toLowerCase` raises a `TypeError` before the `try` block is entered; the
handler issues no call, logs nothing and sends no response. -/
theorem non_string_mode_escapes (openai : Provider) (order : SettleOrder) :
    optimizeHandler openai order (.obj [("prompt", .str "hi"), ("mode", .num "5")]) =
      { calls := [], logged := [],
        outcome := .threw (.typeError "toLowerCase is not a function") } :=
  rfl

theorem object_prompt_with_toString_escapes (openai : Provider) (order : SettleOrder) :
    optimizeHandler openai order (.obj [("prompt", .obj [("toString", .num "1")])]) =
      { calls := [], logged := [],
        outcome := .threw (.typeError "toString is not a function") } :=
  rfl

/-- With a mode that is absent or a string, and a prompt whose string
conversion does not raise, the handler sends one response, of status 200, 400
or 500. -/
theorem handler_responds (openai : Provider) (order : SettleOrder) (body : JsVal) (p : String)
    (hp : userPromptOf body = .ok p)
    (hmode : optChain body "mode" = .undefined ∨ ∃ m, optChain body "mode" = .str m) :
    ∃ r, (optimizeHandler openai order body).outcome = .responded r ∧
      (r.status = 200 ∨ r.status = 400 ∨ r.status = 500) := by
  obtain ⟨mode, hm⟩ := modeOf_of_absent_or_string body hmode
  by_cases hblank : jsTrim p = ""
  · refine ⟨{ status := 400,
              body := .obj [("error", .str "Missing 'prompt' in request body.")] }, ?_,
      Or.inr (Or.inl rfl)⟩
    simp only [optimizeHandler, hp, hm, hblank, if_true]
  · by_cases hb : mode = "both"
    · subst hb
      rw [handler_both openai order body p hp hblank hm]
      split
      · exact ⟨_, rfl, Or.inl rfl⟩
      · exact ⟨_, rfl, Or.inr (Or.inr rfl)⟩
    · by_cases hx : mode = "xml"
      · subst hx
        rw [handler_xml openai order body p hp hblank hm]
        split
        · exact ⟨_, rfl, Or.inl rfl⟩
        · exact ⟨_, rfl, Or.inr (Or.inr rfl)⟩
      · rw [handler_markdown openai order body p mode hp hblank hm hb hx]
        split
        · exact ⟨_, rfl, Or.inl rfl⟩
        · exact ⟨_, rfl, Or.inr (Or.inr rfl)⟩

end PromptOptimizer
